import Mathlib

/-!
Verification of the SignLang core pipeline (`src/core/`).

This file gives a shallow embedding of the core modules
`gesture_sequence.py`, `sign_vocabulary.py`, `temporal_aggregator.py`,
`sentence_constructor.py`, `text_to_sign.py` and `pipeline.py`, and proves
the frozen claims about them.

Modelling conventions:
* Python floats are modelled as exact rationals (`ℚ`); all threshold
  comparisons in the source are far from representation boundaries.
* Python ints are modelled as `ℤ` (frame ids, counts) or `ℕ` (config sizes).
* Python dicts are modelled as insertion-ordered association lists where a
  later binding for the same key shadows an earlier one (`dictSet` appends,
  `dictGet?` returns the last binding), which matches dict assignment.
* `collections.deque(maxlen=n)` is modelled by `dequeAppend`, which drops
  the oldest element when the bound is exceeded.
* Calls to `time.time()` are modelled by threading an explicit `now : ℚ`
  argument through the functions that consult the clock.
* Callbacks are pure events: an emitted `RecognizedGesture` is the `Option`
  component of each step's result, and the pipeline routes it exactly where
  the registered callbacks route it in the source.
* `numpy` landmark/feature arrays never influence the core logic other than
  through `hand_detected = landmarks is not None`; frames carry the
  `handDetected` flag directly, as the spec's interface section describes.
-/

namespace SignLang

attribute [local semireducible] Rat.add Rat.mul Rat.sub Rat.inv Rat.ofScientific

set_option maxRecDepth 1000000

/-- Python `min` of two floats (the value agrees with `min`; defined by the
order test so that concrete runs evaluate). -/
def ratMin (a b : ℚ) : ℚ :=
  if a ≤ b then a else b

/-- Python `max` of two floats. -/
def ratMax (a b : ℚ) : ℚ :=
  if a ≤ b then b else a

/-- Python `str.split()` (no argument): split on whitespace runs, dropping
empty pieces. -/
def pySplitWhitespace (s : String) : List String :=
  let groups := s.toList.foldr
    (fun c (acc : List (List Char)) =>
      if c.isWhitespace then [] :: acc
      else
        match acc with
        | [] => [[c]]
        | g :: gs => (c :: g) :: gs)
    [[]]
  (groups.filter (fun g => g ≠ [])).map String.mk

/-- Python `str.strip()`: drop leading and trailing whitespace. -/
def pyStrip (s : String) : String :=
  let l := s.toList.dropWhile (fun c => c.isWhitespace)
  String.mk ((l.reverse.dropWhile (fun c => c.isWhitespace)).reverse)

/-- Python `str.startswith(p)`. -/
def pyStartsWith (s p : String) : Bool :=
  p.toList.isPrefixOf s.toList

/-- Python `str.upper()` (ASCII). -/
def pyUpper (s : String) : String :=
  String.mk (s.toList.map Char.toUpper)

/-- Python `str.lower()` (ASCII). -/
def pyLower (s : String) : String :=
  String.mk (s.toList.map Char.toLower)

/-- Python dict assignment `d[k] = v`: append; the newest binding wins. -/
def dictSet {α : Type} (m : List (String × α)) (k : String) (v : α) :
    List (String × α) :=
  m ++ [(k, v)]

/-- Python dict lookup `d.get(k)`: the last binding for `k`, if any. -/
def dictGet? {α : Type} (m : List (String × α)) (k : String) : Option α :=
  (m.reverse.find? (fun e => e.1 = k)).map (fun e => e.2)

/-- `collections.deque(maxlen := maxlen).append x`: drop from the left when
the bound is exceeded. -/
def dequeAppend {α : Type} (maxlen : ℕ) (xs : List α) (x : α) : List α :=
  let ys := xs ++ [x]
  if maxlen < ys.length then ys.drop (ys.length - maxlen) else ys

/-! ## gesture_sequence.py -/

/-- `GestureType` enum. -/
inductive GestureType
  | STATIC | DYNAMIC | WORD | PHRASE | TRANSITION | UNKNOWN
deriving DecidableEq, Repr

/-- `GestureFrame` dataclass.  The numpy `landmarks`/`features` payloads are
abstracted away: the core only consults `hand_detected` (set by the pipeline
to `landmarks is not None`). -/
structure GestureFrame where
  timestamp : ℚ
  frameId : ℤ
  predictedLabel : Option String := none
  confidence : ℚ := 0
  gestureType : GestureType := .UNKNOWN
  handDetected : Bool := false
deriving DecidableEq, Repr

/-- `RecognizedGesture` dataclass. -/
structure RecognizedGesture where
  label : String
  gestureType : GestureType
  confidence : ℚ
  startTime : ℚ
  endTime : ℚ
  frameCount : ℤ
  supportingFrames : List ℤ := []
  alternativeLabels : List (String × ℚ) := []
  semanticMeaning : Option String := none
  isWordLevel : Bool := false
deriving DecidableEq, Repr

/-- `GestureSequence` dataclass. -/
structure GestureSequence where
  gestures : List RecognizedGesture := []
  startTime : ℚ := 0
  endTime : ℚ := 0
  isComplete : Bool := false
  translatedText : Option String := none
  translationConfidence : ℚ := 0
deriving DecidableEq, Repr

/-- `GestureSequence.add_gesture`. -/
def GestureSequence.addGesture (s : GestureSequence) (g : RecognizedGesture) :
    GestureSequence :=
  let gs := s.gestures ++ [g]
  { s with
    gestures := gs
    startTime := if gs.length = 1 then g.startTime else s.startTime
    endTime := g.endTime }

/-- `GestureSequence.average_confidence`. -/
def GestureSequence.averageConfidence (s : GestureSequence) : ℚ :=
  if s.gestures = [] then 0
  else (s.gestures.map (fun g => g.confidence)).sum / s.gestures.length

/-- `TranslationResult` dataclass. -/
structure TranslationResult where
  text : String
  confidence : ℚ
  sourceSequence : Option GestureSequence := none
  gestureCount : ℤ := 0
  translationTime : ℚ := 0
  captureDuration : ℚ := 0
  wordCount : ℤ := 0
  averageGestureConfidence : ℚ := 0
  alternatives : List (String × ℚ) := []
deriving DecidableEq, Repr

/-- `TranslationResult.is_valid`: `bool(self.text) and self.confidence > 0.0`. -/
def TranslationResult.isValid (r : TranslationResult) : Bool :=
  (decide (r.text ≠ "")) && (decide (0 < r.confidence))

/-! ## sign_vocabulary.py -/

/-- `SignCategory` enum. -/
inductive SignCategory
  | LETTER | NUMBER | WORD | PHRASE | PUNCTUATION | CONTROL
deriving DecidableEq, Repr

/-- `SignDefinition` dataclass.  Emoji and animation/video payload fields are
display-only and never read by the core logic; they are elided. -/
structure SignDefinition where
  id : String
  text : String
  category : SignCategory
  gestureLabels : List String
  isDynamic : Bool := false
  minConfidence : ℚ := 3/5
  displayText : String := ""
  description : String := ""
  synonyms : List String := []
deriving DecidableEq, Repr

/-- `SignDefinition.__post_init__`: default `display_text` to `text`. -/
def SignDefinition.postInit (s : SignDefinition) : SignDefinition :=
  if s.displayText = "" then { s with displayText := s.text } else s

/-- `SignVocabulary` state: the four dictionaries. -/
structure SignVocabulary where
  signs : List (String × SignDefinition) := []
  gestureToSign : List (String × String) := []
  textToSign : List (String × String) := []
  wordPatterns : List (String × String) := []
deriving DecidableEq, Repr

/-- `SignVocabulary._add_sign`. -/
def SignVocabulary.addSign (v : SignVocabulary) (sign : SignDefinition) :
    SignVocabulary :=
  let v := { v with signs := dictSet v.signs sign.id sign }
  let v := sign.gestureLabels.foldl
    (fun (v : SignVocabulary) label =>
      { v with gestureToSign := (dictSet
          (dictSet v.gestureToSign (pyUpper label) sign.id)
          (pyLower label) sign.id) }) v
  let v := { v with textToSign := (dictSet
      (dictSet v.textToSign (pyUpper sign.text) sign.id)
      (pyLower sign.text) sign.id) }
  sign.synonyms.foldl
    (fun (v : SignVocabulary) syn =>
      { v with textToSign := (dictSet
          (dictSet v.textToSign (pyUpper syn) sign.id)
          (pyLower syn) sign.id) }) v

/-- One letter sign of the `for letter in "ABCDEFGHIJKLMNOPQRSTUVWXYZ"` loop. -/
def letterSign (c : Char) : SignDefinition :=
  SignDefinition.postInit
    { id := "letter_" ++ c.toLower.toString
      text := c.toString
      category := .LETTER
      gestureLabels := [c.toString, c.toLower.toString]
      isDynamic := c = 'J' ∨ c = 'Z'
      displayText := c.toString
      description := "ASL letter " ++ c.toString }

/-- The ten `number_words`. -/
def numberWords : List String :=
  ["zero", "one", "two", "three", "four", "five", "six", "seven", "eight",
   "nine"]

/-- One number sign of the `for i, word in enumerate(number_words)` loop. -/
def numberSign (i : ℕ) (word : String) : SignDefinition :=
  SignDefinition.postInit
    { id := "number_" ++ toString i
      text := toString i
      category := .NUMBER
      gestureLabels := [toString i, word]
      displayText := toString i
      description := "Number " ++ toString i }

/-- The `common_words` list of `_load_default_vocabulary` (in source order). -/
def commonWordSigns : List SignDefinition :=
  [ { id := "word_hello", text := "Hello", category := .WORD
      gestureLabels := ["hello", "wave", "WAVE", "hi"], isDynamic := true
      description := "Wave hand for hello" }
  , { id := "word_goodbye", text := "Goodbye", category := .WORD
      gestureLabels := ["goodbye", "bye"], isDynamic := true
      description := "Wave goodbye" }
  , { id := "word_thanks", text := "Thank you", category := .WORD
      gestureLabels := ["thank_you", "thanks", "thankyou"]
      description := "Touch chin and move forward" }
  , { id := "word_please", text := "Please", category := .WORD
      gestureLabels := ["please"]
      description := "Circular motion on chest" }
  , { id := "word_sorry", text := "Sorry", category := .WORD
      gestureLabels := ["sorry"]
      description := "Fist on chest in circular motion" }
  , { id := "word_yes", text := "Yes", category := .WORD
      gestureLabels := ["yes", "thumbs_up", "THUMBS_UP"]
      description := "Fist nodding like a head" }
  , { id := "word_no", text := "No", category := .WORD
      gestureLabels := ["no", "thumbs_down", "THUMBS_DOWN"]
      description := "Index and middle finger tap thumb" }
  , { id := "word_i", text := "I", category := .WORD
      gestureLabels := ["i", "me", "I_POINT"]
      description := "Point to self" }
  , { id := "word_you", text := "You", category := .WORD
      gestureLabels := ["you", "YOU_POINT"]
      description := "Point to other person" }
  , { id := "word_want", text := "Want", category := .WORD
      gestureLabels := ["want"]
      description := "Hands pull toward body" }
  , { id := "word_need", text := "Need", category := .WORD
      gestureLabels := ["need"]
      description := "X hand moves down" }
  , { id := "word_help", text := "Help", category := .WORD
      gestureLabels := ["help"]
      description := "Thumbs up on flat hand, lift up" }
  , { id := "word_stop", text := "Stop", category := .WORD
      gestureLabels := ["stop", "STOP_HAND"]
      description := "Flat hand chops into other palm" }
  , { id := "word_love", text := "Love", category := .WORD
      gestureLabels := ["love", "heart"]
      description := "Cross arms over chest" }
  , { id := "word_iloveyou", text := "I love you", category := .PHRASE
      gestureLabels := ["i_love_you", "ily", "ILY"]
      description := "ILY handshape (thumb, index, pinky)" }
  , { id := "word_what", text := "What?", category := .WORD
      gestureLabels := ["what"]
      description := "Hands palm up, shake slightly" }
  , { id := "word_where", text := "Where?", category := .WORD
      gestureLabels := ["where"]
      description := "Shake pointed index finger" }
  , { id := "word_how", text := "How?", category := .WORD
      gestureLabels := ["how"]
      description := "Backs of hands together, roll forward" }
  , { id := "word_name", text := "Name", category := .WORD
      gestureLabels := ["name"]
      description := "H hands tap each other" }
  , { id := "word_water", text := "Water", category := .WORD
      gestureLabels := ["water"]
      description := "W hand taps chin" }
  , { id := "word_food", text := "Food", category := .WORD
      gestureLabels := ["food", "eat"]
      description := "Flat O to mouth" }
  ].map SignDefinition.postInit

/-- The `controls` list of `_load_default_vocabulary`. -/
def controlSigns : List SignDefinition :=
  [ { id := "ctrl_space", text := " ", category := .CONTROL
      gestureLabels := ["space", "SPACE", "_"], displayText := "[SPACE]"
      description := "Space between words" }
  , { id := "ctrl_backspace", text := "[DELETE]", category := .CONTROL
      gestureLabels := ["backspace", "delete"], displayText := "[DELETE]"
      description := "Delete last character" }
  , { id := "ctrl_enter", text := "[ENTER]", category := .CONTROL
      gestureLabels := ["enter", "newline"], displayText := "[ENTER]"
      description := "New line / Confirm" }
  ].map SignDefinition.postInit

/-- The `_word_patterns` table. -/
def defaultWordPatterns : List (String × String) :=
  [("HI", "Hi"), ("BYE", "Bye"), ("OK", "OK"), ("YES", "Yes"), ("NO", "No"),
   ("HELP", "Help"), ("STOP", "Stop"), ("LOVE", "Love"), ("THANK", "Thank"),
   ("THANKS", "Thanks"), ("PLEASE", "Please"), ("SORRY", "Sorry"),
   ("WATER", "Water"), ("FOOD", "Food"), ("NAME", "Name"),
   ("HELLO", "Hello"), ("GOOD", "Good"), ("BAD", "Bad"), ("HOW", "How"),
   ("WHAT", "What"), ("WHERE", "Where"), ("WHEN", "When"), ("WHO", "Who"),
   ("WHY", "Why")]

/-- `SignVocabulary.__init__` / `_load_default_vocabulary`. -/
def defaultVocabulary : SignVocabulary :=
  let letters := "ABCDEFGHIJKLMNOPQRSTUVWXYZ".toList.map letterSign
  let numbers := (numberWords.enum).map (fun p => numberSign p.1 p.2)
  let allSigns := letters ++ numbers ++ commonWordSigns ++ controlSigns
  let v := allSigns.foldl SignVocabulary.addSign {}
  { v with wordPatterns := defaultWordPatterns }

/-- `SignVocabulary.get_sign_by_gesture`. -/
def SignVocabulary.getSignByGesture (v : SignVocabulary) (label : String) :
    Option SignDefinition :=
  match dictGet? v.gestureToSign label with
  | some signId => dictGet? v.signs signId
  | none => none

/-- `SignVocabulary.get_sign_by_text` (tries verbatim, upper, lower). -/
def SignVocabulary.getSignByText (v : SignVocabulary) (text : String) :
    Option SignDefinition :=
  let signId :=
    match dictGet? v.textToSign text with
    | some i => some i
    | none =>
      match dictGet? v.textToSign (pyUpper text) with
      | some i => some i
      | none => dictGet? v.textToSign (pyLower text)
  match signId with
  | some i => dictGet? v.signs i
  | none => none

/-- `SignVocabulary.recognize_word_pattern`. -/
def SignVocabulary.recognizeWordPattern (v : SignVocabulary)
    (letters : String) : Option String :=
  dictGet? v.wordPatterns (pyUpper letters)

/-- `SignVocabulary.is_word_gesture`. -/
def SignVocabulary.isWordGesture (v : SignVocabulary) (label : String) :
    Bool :=
  match v.getSignByGesture label with
  | some s => s.category = .WORD ∨ s.category = .PHRASE
  | none => false

/-! ## temporal_aggregator.py -/

/-- `AggregationState` enum. -/
inductive AggregationState
  | IDLE | TRACKING | STABLE | TRANSITIONING
deriving DecidableEq, Repr

/-- `GestureCandidate` dataclass. -/
structure GestureCandidate where
  label : String
  gestureType : GestureType
  startFrame : ℤ
  endFrame : ℤ
  frameIds : List ℤ := []
  confidences : List ℚ := []
  peakConfidence : ℚ := 0
  startTime : ℚ := 0
  lastSeenTime : ℚ := 0
deriving DecidableEq, Repr

/-- `GestureCandidate.duration_frames`. -/
def GestureCandidate.durationFrames (c : GestureCandidate) : ℤ :=
  c.endFrame - c.startFrame + 1

/-- `GestureCandidate.average_confidence`. -/
def GestureCandidate.averageConfidence (c : GestureCandidate) : ℚ :=
  if c.confidences = [] then 0 else c.confidences.sum / c.confidences.length

/-- `TemporalAggregator` state (configuration plus mutable fields).
Statistics that feed no decision (`_recognition_times`) are elided, as is the
`_last_stable_gesture` cache-style field's reader. -/
structure TemporalAggregator where
  windowSize : ℕ := 15
  stabilityThreshold : ℕ := 5
  minConfidence : ℚ := 1/2
  transitionFrames : ℕ := 3
  fps : ℕ := 30
  frameBuffer : List GestureFrame := []
  predictionHistory : List (String × ℚ) := []
  state : AggregationState := .IDLE
  currentCandidate : Option GestureCandidate := none
  lastStableGesture : Option RecognizedGesture := none
  frameCount : ℤ := 0
  noHandCount : ℕ := 0
  totalGesturesRecognized : ℕ := 0
deriving DecidableEq, Repr

/-- One iteration of the `for label, confidence in self._prediction_history`
grouping loop of `_perform_voting` (Python dict insertion order
preserved: a new label is appended, a known label's list is extended). -/
def labelVotesStep (acc : List (String × List ℚ)) (lc : String × ℚ) :
    List (String × List ℚ) :=
  if acc.any (fun e => e.1 = lc.1) then
    acc.map (fun e => if e.1 = lc.1 then (e.1, e.2 ++ [lc.2]) else e)
  else acc ++ [(lc.1, [lc.2])]

/-- The grouping loop of `_perform_voting`. -/
def labelVotes (hist : List (String × ℚ)) : List (String × List ℚ) :=
  hist.foldl labelVotesStep []

/-- `score = count * avg_conf` as computed in `_perform_voting`. -/
def voteScore (confs : List ℚ) : ℚ :=
  (confs.length : ℚ) * (confs.sum / confs.length)

/-- One iteration of the winner-finding loop of `_perform_voting`: strict
improvement over the running best. -/
def bestVoteStep (best : Option String × ℚ) (lv : String × List ℚ) :
    Option String × ℚ :=
  if best.2 < voteScore lv.2 then (some lv.1, voteScore lv.2) else best

/-- The winner-finding loop of `_perform_voting`, starting from
`(None, 0.0)`. -/
def bestVote (votes : List (String × List ℚ)) : Option String × ℚ :=
  votes.foldl bestVoteStep (none, 0)

/-- `TemporalAggregator._perform_voting`.  The Python `(None, 0.0)` result is
`none`; `(label, conf)` is `some (label, conf)`. -/
def performVoting (hist : List (String × ℚ)) : Option (String × ℚ) :=
  if hist.length < 2 then none
  else
    let votes := labelVotes hist
    match bestVote votes with
    | (none, _) => none
    | (some best, _) =>
      let labelConfidences :=
        ((votes.find? (fun e => e.1 = best)).map (fun e => e.2)).getD []
      let consistency : ℚ := (labelConfidences.length : ℚ) / hist.length
      let avgConfidence := labelConfidences.sum / labelConfidences.length
      if consistency < 2/5 then none
      else some (best, ratMin 1 (avgConfidence * (1/2 + 1/2 * consistency)))

/-- `TemporalAggregator._start_candidate` (the constructed candidate). -/
def startCandidate (label : String) (gt : GestureType) (frameId : ℤ)
    (timestamp : ℚ) : GestureCandidate :=
  { label := label
    gestureType := gt
    startFrame := frameId
    endFrame := frameId
    frameIds := [frameId]
    startTime := timestamp
    lastSeenTime := timestamp }

/-- `TemporalAggregator._update_candidate`. -/
def updateCandidate (c : GestureCandidate) (frameId : ℤ) (confidence : ℚ)
    (timestamp : ℚ) : GestureCandidate :=
  { c with
    endFrame := frameId
    frameIds := c.frameIds ++ [frameId]
    confidences := c.confidences ++ [confidence]
    peakConfidence := ratMax c.peakConfidence confidence
    lastSeenTime := timestamp }

/-- `TemporalAggregator._finalize_gesture`.  The `on_gesture_recognized`
callback receives exactly the returned gesture. -/
def finalizeGesture (a : TemporalAggregator) :
    TemporalAggregator × Option RecognizedGesture :=
  match a.currentCandidate with
  | none => (a, none)
  | some c =>
    let g : RecognizedGesture :=
      { label := c.label
        gestureType := c.gestureType
        confidence := c.averageConfidence
        startTime := c.startTime
        endTime := c.lastSeenTime
        frameCount := c.durationFrames
        supportingFrames := c.frameIds }
    ({ a with
        totalGesturesRecognized := a.totalGesturesRecognized + 1
        lastStableGesture := some g
        currentCandidate := none },
     some g)

/-- `TemporalAggregator._update_state`. -/
def updateState (a : TemporalAggregator) (label : String) (confidence : ℚ)
    (frame : GestureFrame) (now : ℚ) :
    TemporalAggregator × Option RecognizedGesture :=
  match a.state with
  | .IDLE =>
    ({ a with
        currentCandidate :=
          some (startCandidate label frame.gestureType frame.frameId now)
        state := .TRACKING },
     none)
  | .TRACKING =>
    match a.currentCandidate with
    | none =>
      ({ a with
          currentCandidate :=
            some (startCandidate label frame.gestureType frame.frameId now) },
       none)
    | some c =>
      if label = c.label then
        let c' := updateCandidate c frame.frameId confidence now
        if (a.stabilityThreshold : ℤ) ≤ c'.durationFrames then
          finalizeGesture { a with currentCandidate := some c', state := .STABLE }
        else ({ a with currentCandidate := some c' }, none)
      else
        let a' := { a with state := .TRANSITIONING }
        if ((a.stabilityThreshold / 2 : ℕ) : ℤ) ≤ c.durationFrames then
          let fg := finalizeGesture a'
          ({ fg.1 with
              currentCandidate :=
                some (startCandidate label frame.gestureType frame.frameId now) },
           fg.2)
        else
          ({ a' with
              currentCandidate :=
                some (startCandidate label frame.gestureType frame.frameId now) },
           none)
  | .STABLE =>
    match a.currentCandidate with
    | some c =>
      if label = c.label then
        ({ a with
            currentCandidate := some (updateCandidate c frame.frameId confidence now) },
         none)
      else
        ({ a with
            state := .TRACKING
            currentCandidate :=
              some (startCandidate label frame.gestureType frame.frameId now) },
         none)
    | none =>
      ({ a with
          state := .TRACKING
          currentCandidate :=
            some (startCandidate label frame.gestureType frame.frameId now) },
       none)
  | .TRANSITIONING =>
    match a.currentCandidate with
    | some c =>
      if label = c.label then
        ({ a with
            currentCandidate := some (updateCandidate c frame.frameId confidence now)
            state := .TRACKING },
         none)
      else (a, none)
    | none => (a, none)

/-- `TemporalAggregator.process_frame`.  `now` models the `time.time()`
calls inside `_update_state`. -/
def processFrame (a : TemporalAggregator) (frame0 : GestureFrame) (now : ℚ) :
    TemporalAggregator × Option RecognizedGesture :=
  let fc := a.frameCount + 1
  let frame := { frame0 with frameId := fc }
  let a := { a with
      frameCount := fc
      frameBuffer := dequeAppend a.windowSize a.frameBuffer frame }
  if frame.handDetected = false then
    let a := { a with noHandCount := a.noHandCount + 1 }
    if a.state = .TRACKING ∧ a.currentCandidate.isSome ∧
        a.transitionFrames < a.noHandCount then
      finalizeGesture a
    else
      let a :=
        if a.windowSize / 2 < a.noHandCount then { a with state := .IDLE }
        else a
      (a, none)
  else
    let a := { a with noHandCount := 0 }
    let a :=
      match frame.predictedLabel with
      | some l =>
        if l ≠ "" ∧ a.minConfidence ≤ frame.confidence then
          { a with predictionHistory :=
              dequeAppend a.windowSize a.predictionHistory (l, frame.confidence) }
        else a
      | none => a
    match performVoting a.predictionHistory with
    | none => (a, none)
    | some lv => updateState a lv.1 lv.2 frame now

/-- `TemporalAggregator.force_finalize`. -/
def forceFinalize (a : TemporalAggregator) :
    TemporalAggregator × Option RecognizedGesture :=
  match a.currentCandidate with
  | some c => if (2 : ℤ) ≤ c.durationFrames then finalizeGesture a else (a, none)
  | none => (a, none)

/-- Run the aggregator over a list of `(frame, now)` samples, collecting the
emitted gestures in order. -/
def aggRun (a : TemporalAggregator) (fs : List (GestureFrame × ℚ)) :
    TemporalAggregator × List RecognizedGesture :=
  fs.foldl
    (fun (p : TemporalAggregator × List RecognizedGesture) f =>
      let r := processFrame p.1 f.1 f.2
      (r.1, p.2 ++ r.2.toList))
    (a, [])

/-! ## sentence_constructor.py -/

/-- `ConstructionMode` enum. -/
inductive ConstructionMode
  | LETTER_BY_LETTER | WORD_RECOGNITION | HYBRID | CONTINUOUS
deriving DecidableEq, Repr

/-- `WordCandidate` dataclass. -/
structure WordCandidate where
  letters : List String := []
  startTime : ℚ := 0
  confidences : List ℚ := []
deriving DecidableEq, Repr

/-- `WordCandidate.get_text`. -/
def WordCandidate.getText (w : WordCandidate) : String :=
  String.join w.letters

/-- `WordCandidate.length`. -/
def WordCandidate.wcLength (w : WordCandidate) : ℕ :=
  w.letters.length

/-- `re`'s word character class `\w` (ASCII range; all strings the core
formats are ASCII). -/
def isWordChar (c : Char) : Bool :=
  c.isAlpha || c.isDigit || c = '_'

/-- Case-insensitive (`ci = true`) or exact prefix match of `pat` against
`s`, as the regex engine matches the literal patterns used by the source. -/
def patMatches (ci : Bool) : List Char → List Char → Bool
  | [], _ => true
  | _ :: _, [] => false
  | p :: ps, c :: cs =>
    (if ci then p.toLower = c.toLower else p = c) && patMatches ci ps cs

/-- `\b` on the left of a literal pattern that starts with a word character:
the preceding original character (if any) is not a word character. -/
def boundaryBefore (prev : Option Char) : Bool :=
  match prev with
  | none => true
  | some p => !isWordChar p

/-- `\b` on the right of a literal pattern that ends with a word character:
the following original character (if any) is not a word character. -/
def boundaryAfter (s : List Char) : Bool :=
  match s with
  | [] => true
  | c :: _ => !isWordChar c

/-- One pass of `re.sub(r"\b<pat>\b", repl, s)` (with `re.IGNORECASE` when
`ci`): leftmost, non-overlapping matches against the original string.
`fuel` only bounds the recursion; it is seeded with the string length, and
every step consumes at least one character, so it never runs out. -/
def subScan (ci : Bool) (pat repl : List Char) :
    ℕ → Option Char → List Char → List Char
  | 0, _, s => s
  | _ + 1, _, [] => []
  | fuel + 1, prev, c :: cs =>
    if pat ≠ [] ∧ patMatches ci pat (c :: cs) ∧ boundaryBefore prev = true ∧
        boundaryAfter ((c :: cs).drop pat.length) = true then
      repl ++ subScan ci pat repl fuel ((c :: cs).take pat.length).getLast?
        ((c :: cs).drop pat.length)
    else c :: subScan ci pat repl fuel (some c) cs

/-- `re.sub` of one word-bounded literal pattern over a string. -/
def subWordBounded (ci : Bool) (pat repl s : String) : String :=
  String.mk (subScan ci pat.toList repl.toList (s.length + 1) none s.toList)

/-- Python `" ".join(text.split())`: collapse whitespace runs. -/
def collapseWhitespace (text : String) : String :=
  String.intercalate " " (pySplitWhitespace text)

/-- `text[0].upper() + text[1:]`. -/
def capitalizeFirst (text : String) : String :=
  match text.toList with
  | [] => ""
  | c :: cs => String.mk (c.toUpper :: cs)

/-- An apostrophe character, used in the contraction replacement strings. -/
def apos : String :=
  String.mk [Char.ofNat 39]

/-- The `contractions` table of `_format_text` (patterns are matched with
`\b` boundaries and `re.IGNORECASE`). -/
def contractionsTable : List (String × String) :=
  [("I M", "I" ++ apos ++ "m"),
   ("DONT", "don" ++ apos ++ "t"),
   ("WONT", "won" ++ apos ++ "t"),
   ("CANT", "can" ++ apos ++ "t"),
   ("YOURE", "you" ++ apos ++ "re"),
   ("THEYRE", "they" ++ apos ++ "re"),
   ("WERE", "we" ++ apos ++ "re"),
   ("ILL", "I" ++ apos ++ "ll"),
   ("YOULL", "you" ++ apos ++ "ll")]

/-- `SentenceConstructor._format_text`. -/
def formatText (text : String) : String :=
  if text = "" then ""
  else
    let text := collapseWhitespace text
    let text := if text ≠ "" then capitalizeFirst text else text
    let text := subWordBounded false "i" "I" text
    contractionsTable.foldl (fun t pr => subWordBounded true pr.1 pr.2 t) text

/-- The `_word_delimiters` set. -/
def wordDelimiters : List String :=
  ["WAVE", "SPACE", " ", "_", "PAUSE"]

/-- The `_abbreviations` table. -/
def abbreviationsTable : List (String × String) :=
  [("TY", "Thank you"),
   ("TYS", "Thank you so much"),
   ("NP", "No problem"),
   ("PLZ", "Please"),
   ("PLS", "Please"),
   ("ILY", "I love you"),
   ("OMG", "Oh my god"),
   ("BTW", "By the way"),
   ("IDK", "I don" ++ apos ++ "t know"),
   ("NVM", "Never mind")]

/-- `SentenceConstructor` state. -/
structure SentenceConstructor where
  vocabulary : SignVocabulary
  mode : ConstructionMode := .HYBRID
  wordTimeout : ℚ := 3/2
  sentenceTimeout : ℚ := 3
  currentWord : WordCandidate := {}
  words : List String := []
  gestureSequence : GestureSequence := {}
  lastGestureTime : ℚ := 0
  sentenceStartTime : ℚ := 0
  rawText : String := ""
  formattedText : String := ""
deriving DecidableEq, Repr

/-- `SentenceConstructor._is_letter_or_number`. -/
def isLetterOrNumber (label : String) : Bool :=
  match label.toList with
  | [c] => c.isAlpha || c.isDigit
  | _ => false

/-- `SentenceConstructor._get_word_text` (`if gesture.semantic_meaning:`
is Python truthiness, so the empty string falls through). -/
def getWordText (v : SignVocabulary) (g : RecognizedGesture) : String :=
  match g.semanticMeaning with
  | some m =>
    if m ≠ "" then m
    else
      match v.getSignByGesture g.label with
      | some s => s.text
      | none => g.label
  | none =>
    match v.getSignByGesture g.label with
    | some s => s.text
    | none => g.label

/-- `SentenceConstructor._finalize_word`; `now` models the `time.time()`
call that stamps the fresh `WordCandidate`. -/
def SentenceConstructor.finalizeWord (sc : SentenceConstructor) (now : ℚ) :
    SentenceConstructor :=
  if sc.currentWord.wcLength = 0 then sc
  else
    let wordText := sc.currentWord.getText
    let wordText :=
      if sc.mode = .WORD_RECOGNITION ∨ sc.mode = .HYBRID then
        match sc.vocabulary.recognizeWordPattern wordText with
        | some recognized => recognized
        | none =>
          match dictGet? abbreviationsTable (pyUpper wordText) with
          | some ab => ab
          | none => wordText
      else wordText
    let words := if wordText ≠ "" then sc.words ++ [wordText] else sc.words
    { sc with words := words, currentWord := { startTime := now } }

/-- `SentenceConstructor._update_text`. -/
def SentenceConstructor.updateText (sc : SentenceConstructor) :
    SentenceConstructor :=
  let parts := sc.words ++
    (if 0 < sc.currentWord.wcLength then [sc.currentWord.getText] else [])
  let raw := String.intercalate " " parts
  { sc with rawText := raw, formattedText := formatText raw }

/-- `SentenceConstructor.add_gesture`; `now` models `time.time()`. -/
def SentenceConstructor.addGesture (sc : SentenceConstructor)
    (g : RecognizedGesture) (now : ℚ) : SentenceConstructor :=
  let sc := { sc with gestureSequence := sc.gestureSequence.addGesture g }
  let sc :=
    if 0 < sc.lastGestureTime ∧ sc.wordTimeout < now - sc.lastGestureTime then
      sc.finalizeWord now
    else sc
  let sc := { sc with lastGestureTime := now }
  let sc :=
    if sc.sentenceStartTime = 0 then { sc with sentenceStartTime := now }
    else sc
  let sc :=
    if g.isWordLevel || sc.vocabulary.isWordGesture g.label then
      let sc := sc.finalizeWord now
      { sc with words := sc.words ++ [getWordText sc.vocabulary g] }
    else if pyUpper g.label ∈ wordDelimiters then
      sc.finalizeWord now
    else if isLetterOrNumber g.label then
      { sc with currentWord :=
          { sc.currentWord with
            letters := sc.currentWord.letters ++ [pyUpper g.label]
            confidences := sc.currentWord.confidences ++ [g.confidence] } }
    else sc
  sc.updateText

/-- `SentenceConstructor.finalize_sentence`; returns the updated state and
the `TranslationResult`. -/
def SentenceConstructor.finalizeSentence (sc : SentenceConstructor)
    (now : ℚ) : SentenceConstructor × TranslationResult :=
  let sc := sc.finalizeWord now
  let sc := sc.updateText
  let seq :=
    { sc.gestureSequence with
      isComplete := true
      translatedText := some sc.formattedText
      translationConfidence := sc.gestureSequence.averageConfidence }
  let sc := { sc with gestureSequence := seq }
  (sc,
   { text := sc.formattedText
     confidence := seq.averageConfidence
     sourceSequence := some seq
     gestureCount := seq.gestures.length
     captureDuration := if sc.sentenceStartTime ≠ 0 then now - sc.sentenceStartTime else 0
     wordCount := sc.words.length
     averageGestureConfidence := seq.averageConfidence })

/-- `SentenceConstructor.get_preview`. -/
def SentenceConstructor.getPreview (sc : SentenceConstructor) : String :=
  let parts := sc.words ++
    (if 0 < sc.currentWord.wcLength then
      ["[" ++ sc.currentWord.getText ++ "]"] else [])
  if parts ≠ [] then String.intercalate " " parts else "(waiting...)"

/-- `ContinuousSentenceBuilder`: wraps a constructor fixed to
`ConstructionMode.CONTINUOUS`. -/
structure ContinuousSentenceBuilder where
  constructor : SentenceConstructor
  autoFinalizeTimeout : ℚ := 3
deriving DecidableEq, Repr

/-- `ContinuousSentenceBuilder.__init__`. -/
def mkContinuousSentenceBuilder (v : SignVocabulary)
    (autoFinalizeTimeout : ℚ := 3) : ContinuousSentenceBuilder :=
  { constructor := { vocabulary := v, mode := .CONTINUOUS }
    autoFinalizeTimeout := autoFinalizeTimeout }

/-! ## text_to_sign.py -/

/-- `SignOutputType` enum. -/
inductive SignOutputType
  | WORD_SIGN | LETTER_SPELL | NUMBER | FINGERSPELL
deriving DecidableEq, Repr

/-- `SignOutput` dataclass (animation payloads elided, as above). -/
structure SignOutput where
  signId : String
  text : String
  displayText : String
  outputType : SignOutputType
  signDefinition : Option SignDefinition := none
  durationHint : ℚ := 1
  letters : List String := []
deriving DecidableEq, Repr

/-- `SignSequenceResult` dataclass. -/
structure SignSequenceResult where
  originalText : String
  signs : List SignOutput := []
  wordCount : ℕ := 0
  signCount : ℕ := 0
  fingerspelledCount : ℕ := 0
deriving DecidableEq, Repr

/-- `TextToSignTranslator` (configuration and phrase table). -/
structure TextToSignTranslator where
  vocabulary : SignVocabulary
  wordSignDuration : ℚ := 3/2
  letterDuration : ℚ := 1/2
  pauseDuration : ℚ := 3/10
deriving DecidableEq, Repr

/-- The `_phrase_patterns` table. -/
def defaultPhrasePatterns : List (String × List String) :=
  [("thank you", ["thank_you"]),
   ("i love you", ["i_love_you"]),
   ("how are you", ["how", "you"]),
   ("nice to meet you", ["nice", "meet", "you"]),
   ("my name is", ["my", "name"]),
   ("what is your name", ["what", "your", "name"])]

/-- `TextToSignTranslator._normalize_text`: collapse whitespace, replace
every character outside `[\w\s']` by a space, strip. -/
def normalizeText (text : String) : String :=
  let text := collapseWhitespace text
  let text := String.mk (text.toList.map
    (fun c => if isWordChar c || c.isWhitespace || c = Char.ofNat 39 then c
              else ' '))
  pyStrip text

/-- `TextToSignTranslator._check_phrase_match`. -/
def checkPhraseMatch (text : String) : Option (List String) :=
  (defaultPhrasePatterns.find?
    (fun p => text = p.1 || pyStartsWith text (p.1 ++ " "))).map (fun p => p.2)

/-- `TextToSignTranslator._create_word_sign`. -/
def createWordSign (t : TextToSignTranslator) (signLabel : String) :
    Option SignOutput :=
  match t.vocabulary.getSignByGesture signLabel with
  | some signDef =>
    some { signId := signDef.id
           text := signDef.text
           displayText := signDef.displayText
           outputType := .WORD_SIGN
           signDefinition := some signDef
           durationHint := t.wordSignDuration }
  | none => none

/-- `TextToSignTranslator._lookup_word_sign`. -/
def lookupWordSign (t : TextToSignTranslator) (word : String) :
    Option SignOutput :=
  match t.vocabulary.getSignByText word with
  | some signDef =>
    if signDef.category = .WORD ∨ signDef.category = .PHRASE then
      some { signId := signDef.id
             text := word
             displayText := if signDef.displayText ≠ "" then signDef.displayText else word
             outputType := .WORD_SIGN
             signDefinition := some signDef
             durationHint := t.wordSignDuration }
    else none
  | none => none

/-- `TextToSignTranslator._create_number_sign` (never returns `None`: it has
an explicit fallback). -/
def createNumberSign (t : TextToSignTranslator) (digit : String) :
    SignOutput :=
  match t.vocabulary.getSignByText digit with
  | some signDef =>
    { signId := signDef.id
      text := digit
      displayText := digit
      outputType := .NUMBER
      signDefinition := some signDef
      durationHint := t.letterDuration }
  | none =>
    { signId := "number_" ++ digit
      text := digit
      displayText := digit
      outputType := .NUMBER
      durationHint := t.letterDuration }

/-- `TextToSignTranslator._create_letter_sign`. -/
def createLetterSign (t : TextToSignTranslator) (letter : String) :
    Option SignOutput :=
  if !(letter.toList.all (fun c => c.isAlpha)) ∨ letter.length ≠ 1 then none
  else
    let letter := pyUpper letter
    some { signId := "letter_" ++ pyLower letter
           text := letter
           displayText := letter
           outputType := .LETTER_SPELL
           signDefinition := t.vocabulary.getSignByText letter
           durationHint := t.letterDuration }

/-- `TextToSignTranslator._create_fingerspell_expanded`. -/
def createFingerspellExpanded (t : TextToSignTranslator) (word : String) :
    List SignOutput :=
  let wordUpper := pyUpper word
  (wordUpper.toList.enum).filterMap
    (fun ic =>
      if ic.2.isAlpha then
        some { signId := "fingerspell_" ++ pyLower word ++ "_" ++
                 ic.2.toLower.toString ++ "_" ++ toString ic.1
               text := ic.2.toString
               displayText := ic.2.toString
               outputType := .LETTER_SPELL
               signDefinition := t.vocabulary.getSignByText ic.2.toString
               durationHint := t.letterDuration
               letters := [ic.2.toString] }
      else none)

/-- `TextToSignTranslator._create_fingerspell` (bundled form). -/
def createFingerspell (t : TextToSignTranslator) (word : String) :
    SignOutput :=
  let letterSigns := ((pyUpper word).toList.filter (fun c => c.isAlpha)).map
    (fun c => c.toString)
  { signId := "fingerspell_" ++ pyLower word
    text := word
    displayText := "[" ++ pyUpper word ++ "]"
    outputType := .FINGERSPELL
    letters := letterSigns
    durationHint := letterSigns.length * t.letterDuration }

/-- Per-token body of the main loop of `TextToSignTranslator.translate`. -/
def translateToken (t : TextToSignTranslator) (expandFingerspelling : Bool)
    (res : SignSequenceResult) (token : String) : SignSequenceResult :=
  if pyStrip token = "" then res
  else if token.length = 1 ∧ token.toList.all (fun c => c.isAlpha) then
    match createLetterSign t token with
    | some s => { res with signs := res.signs ++ [s] }
    | none => res
  else if token ≠ "" ∧ token.toList.all (fun c => c.isDigit) then
    { res with signs := res.signs ++
        (token.toList.map (fun d => createNumberSign t d.toString)) }
  else
    match lookupWordSign t token with
    | some w =>
      { res with signs := res.signs ++ [w], wordCount := res.wordCount + 1 }
    | none =>
      if expandFingerspelling then
        { res with
          signs := res.signs ++ createFingerspellExpanded t token
          fingerspelledCount := res.fingerspelledCount + 1 }
      else
        { res with
          signs := res.signs ++ [createFingerspell t token]
          fingerspelledCount := res.fingerspelledCount + 1 }

/-- `TextToSignTranslator.translate`. -/
def translate (t : TextToSignTranslator) (text : String)
    (expandFingerspelling : Bool := true) : SignSequenceResult :=
  let result : SignSequenceResult := { originalText := text }
  if text = "" then result
  else
    let ntext := normalizeText text
    match checkPhraseMatch (pyLower ntext) with
    | some phraseSigns =>
      let signs := phraseSigns.filterMap (createWordSign t)
      { result with
        signs := signs
        wordCount := phraseSigns.length
        signCount := signs.length }
    | none =>
      let tokens := pySplitWhitespace ntext
      let res := tokens.foldl (translateToken t expandFingerspelling) result
      { res with signCount := res.signs.length }

/-! ## pipeline.py -/

/-- `PipelineMode` enum. -/
inductive PipelineMode
  | IDLE | LIVE_CONTINUOUS | LIVE_ACCUMULATE | VIDEO_PROCESS | TEXT_TO_SIGN
deriving DecidableEq, Repr

/-- `TranslationMode` enum. -/
inductive TranslationMode
  | INSTANT | SENTENCE | WORD
deriving DecidableEq, Repr

/-- `PipelineConfig` dataclass. -/
structure PipelineConfig where
  aggregationWindow : ℕ := 15
  stabilityThreshold : ℕ := 5
  minConfidence : ℚ := 1/2
  wordTimeout : ℚ := 3/2
  sentenceTimeout : ℚ := 3
  translationMode : TranslationMode := .SENTENCE
  autoTranslateEnabled : Bool := true
  targetFps : ℕ := 30
  enableWordRecognition : Bool := true
  enableDynamicGestures : Bool := true
  enableHeuristics : Bool := true
deriving DecidableEq, Repr

/-- `PipelineState` dataclass. -/
structure PipelineState where
  mode : PipelineMode := .IDLE
  isProcessing : Bool := false
  framesProcessed : ℤ := 0
  gesturesRecognized : ℕ := 0
  currentText : String := ""
  currentPreview : String := ""
  lastGesture : Option String := none
  lastConfidence : ℚ := 0
  startTime : ℚ := 0
  lastUpdateTime : ℚ := 0
deriving DecidableEq, Repr

/-- `SignLanguagePipeline` state. -/
structure SignLanguagePipeline where
  config : PipelineConfig := {}
  vocabulary : SignVocabulary
  aggregator : TemporalAggregator
  sentenceBuilder : ContinuousSentenceBuilder
  textToSign : TextToSignTranslator
  state : PipelineState := {}
  frameId : ℤ := 0
  lastGestureTime : ℚ := 0
deriving DecidableEq, Repr

/-- `SignLanguagePipeline.__init__` with the default configuration. -/
def mkPipeline (config : PipelineConfig := {}) : SignLanguagePipeline :=
  let vocabulary := defaultVocabulary
  { config := config
    vocabulary := vocabulary
    aggregator :=
      { windowSize := config.aggregationWindow
        stabilityThreshold := config.stabilityThreshold
        minConfidence := config.minConfidence
        fps := config.targetFps }
    sentenceBuilder :=
      mkContinuousSentenceBuilder vocabulary config.sentenceTimeout
    textToSign := { vocabulary := vocabulary } }

/-- `SignLanguagePipeline._update_state_text`: refresh `current_text` and
`current_preview` (`get_current_text` itself calls `_update_text`). -/
def SignLanguagePipeline.updateStateText (p : SignLanguagePipeline) :
    SignLanguagePipeline :=
  let sc := p.sentenceBuilder.constructor.updateText
  { p with
    sentenceBuilder := { p.sentenceBuilder with constructor := sc }
    state := { p.state with
      currentText := sc.formattedText
      currentPreview := sc.getPreview } }

/-- `SignLanguagePipeline._handle_recognized_gesture`; `now` models
`time.time()`.  The `_on_text_updated` chain only mirrors this text into
`state.current_text`/`current_preview`, which `updateStateText` performs. -/
def SignLanguagePipeline.handleRecognizedGesture (p : SignLanguagePipeline)
    (g : RecognizedGesture) (now : ℚ) : SignLanguagePipeline :=
  let p := { p with
      state := { p.state with gesturesRecognized := p.state.gesturesRecognized + 1 }
      lastGestureTime := now }
  let g :=
    if p.vocabulary.isWordGesture g.label then
      let g := { g with isWordLevel := true }
      match p.vocabulary.getSignByGesture g.label with
      | some sign => { g with semanticMeaning := some sign.text }
      | none => g
    else g
  let sc := p.sentenceBuilder.constructor.addGesture g now
  let p := { p with
      sentenceBuilder := { p.sentenceBuilder with constructor := sc } }
  p.updateStateText

/-- `SignLanguagePipeline.process_gesture`; returns the updated pipeline and
the Python return value (`None` or the current text). -/
def SignLanguagePipeline.processGesture (p : SignLanguagePipeline)
    (label : String) (confidence : ℚ) (gt : GestureType := .STATIC)
    (now : ℚ := 0) : SignLanguagePipeline × Option String :=
  if p.state.isProcessing = false then (p, none)
  else if confidence < p.config.minConfidence then (p, none)
  else
    let g : RecognizedGesture :=
      { label := label
        gestureType := gt
        confidence := confidence
        startTime := now
        endTime := now
        frameCount := 1
        isWordLevel := p.vocabulary.isWordGesture label }
    let g :=
      if g.isWordLevel then
        match p.vocabulary.getSignByGesture label with
        | some sign => { g with semanticMeaning := some sign.text }
        | none => g
      else g
    let p := p.handleRecognizedGesture g now
    (p, some p.state.currentText)

/-- `SignLanguagePipeline.clear`. -/
def SignLanguagePipeline.clear (p : SignLanguagePipeline) :
    SignLanguagePipeline :=
  { p with
    aggregator := { p.aggregator with
      frameBuffer := []
      predictionHistory := []
      state := .IDLE
      currentCandidate := none
      frameCount := 0
      noHandCount := 0 }
    sentenceBuilder := { p.sentenceBuilder with
      constructor := { p.sentenceBuilder.constructor with
        currentWord := {}
        words := []
        gestureSequence := {}
        lastGestureTime := 0
        sentenceStartTime := 0
        rawText := ""
        formattedText := "" } }
    state := {}
    frameId := 0
    lastGestureTime := 0 }

/-- `SignLanguagePipeline.start`. -/
def SignLanguagePipeline.start (p : SignLanguagePipeline)
    (mode : PipelineMode := .LIVE_CONTINUOUS) (now : ℚ := 0) :
    SignLanguagePipeline :=
  let p := p.clear
  { p with state := { p.state with
      mode := mode
      isProcessing := true
      startTime := now } }

/-- `SignLanguagePipeline.stop_and_translate`.  `force_finalize` fires the
`on_gesture_recognized` callback, which is wired to
`_handle_recognized_gesture`, before the sentence is finalized. -/
def SignLanguagePipeline.stopAndTranslate (p : SignLanguagePipeline)
    (now : ℚ := 0) : SignLanguagePipeline × TranslationResult :=
  let ff := forceFinalize p.aggregator
  let p := { p with aggregator := ff.1 }
  let p :=
    match ff.2 with
    | some g => p.handleRecognizedGesture g now
    | none => p
  let fr := p.sentenceBuilder.constructor.finalizeSentence now
  let p := { p with
      sentenceBuilder := { p.sentenceBuilder with constructor := fr.1 }
      state := { p.state with isProcessing := false, mode := .IDLE } }
  (p, fr.2)

/-! ## Concrete scenarios and specification-side helpers for the claims -/

/-- A hand-detected frame carrying a classifier prediction. -/
def handFrame (l : String) (c : ℚ) : GestureFrame :=
  { timestamp := 0
    frameId := 0
    predictedLabel := some l
    confidence := c
    gestureType := .STATIC
    handDetected := true }

/-- A frame with no hand detected. -/
def noHandFrame : GestureFrame :=
  { timestamp := 0, frameId := 0 }

/-- A freshly constructed aggregator with default parameters. -/
def defaultAggregator : TemporalAggregator := {}

/-- Pair each frame with a clock reading of `0` (the aggregator's logic
never branches on the clock). -/
def withTimes (fs : List GestureFrame) : List (GestureFrame × ℚ) :=
  fs.map (fun f => (f, 0))

/-- Spec-side: the confidences recorded for label `l` in a history. -/
def labelConfs (hist : List (String × ℚ)) (l : String) : List ℚ :=
  (hist.filter (fun e => e.1 = l)).map (fun e => e.2)

/-- Spec-side: mean confidence of label `l` over a history. -/
def meanConf (hist : List (String × ℚ)) (l : String) : ℚ :=
  (labelConfs hist l).sum / (labelConfs hist l).length

/-- Spec-side: `score = count × mean(confidence)` for label `l`. -/
def scoreOf (hist : List (String × ℚ)) (l : String) : ℚ :=
  ((labelConfs hist l).length : ℚ) * meanConf hist l

/-- Spec-side: `consistency = count_of_label / total_history_length`. -/
def consistencyOf (hist : List (String × ℚ)) (l : String) : ℚ :=
  ((labelConfs hist l).length : ℚ) / hist.length

/-- The label the voting loop settles on (before the consistency gate). -/
def votingWinner (hist : List (String × ℚ)) : Option String :=
  (bestVote (labelVotes hist)).1

/-- The three-part invariant of the `label_votes` grouping accumulator. -/
def votesAccSpec (processed : List (String × ℚ))
    (acc : List (String × List ℚ)) : Prop :=
  (∀ e ∈ acc, e.2 = labelConfs processed e.1) ∧
    (∀ l, l ∈ acc.map Prod.fst ↔ l ∈ processed.map Prod.fst) ∧
    (acc.map Prod.fst).Nodup

/-- The invariant of claim C10 over a candidate. -/
def candidateLenInv (a : TemporalAggregator) : Prop :=
  ∀ c, a.currentCandidate = some c →
    c.confidences.length + 1 = c.frameIds.length

/-- C1: the end-to-end `LIVE_ACCUMULATE` scenario of the spec, driven
through `process_gesture` with calls 0.1–0.2 s apart (well inside the 1.5 s
word timeout). -/
def c1Result : TranslationResult :=
  let p := (mkPipeline).start .LIVE_ACCUMULATE 0
  let p := (p.processGesture "H" 0.85 .STATIC 1).1
  let p := (p.processGesture "E" 0.82 .STATIC (11/10)).1
  let p := (p.processGesture "L" 0.88 .STATIC (6/5)).1
  let p := (p.processGesture "L" 0.84 .STATIC (13/10)).1
  let p := (p.processGesture "O" 0.86 .STATIC (7/5)).1
  (p.stopAndTranslate (3/2)).2

/-- C2: run the default aggregator over same-label, hand-detected frames
with the given confidences. -/
def c2Run (l : String) (cs : List ℚ) :
    TemporalAggregator × List RecognizedGesture :=
  aggRun defaultAggregator (withTimes (cs.map (handFrame l)))

/-- C3, stated-claim scenario: two A-frames (a candidate of
`duration_frames = 2 < 5/2`) then B-frames that win the vote at frame 4. -/
def c3Run : TemporalAggregator × List RecognizedGesture :=
  aggRun defaultAggregator
    (withTimes [handFrame "A" (9/10), handFrame "A" (9/10),
                handFrame "B" 1, handFrame "B" 1])

/-- C3: one A-frame then B-frames (the abandoned candidate is short). -/
def c3ShortRun : TemporalAggregator × List RecognizedGesture :=
  aggRun defaultAggregator
    (withTimes [handFrame "A" (4/5), handFrame "B" (4/5),
                handFrame "B" (4/5), handFrame "B" (4/5)])

/-- C3: two A-frames then B-frames, equal confidences. -/
def c3LongRun : TemporalAggregator × List RecognizedGesture :=
  aggRun defaultAggregator
    (withTimes [handFrame "A" (4/5), handFrame "A" (4/5),
                handFrame "B" (4/5), handFrame "B" (4/5),
                handFrame "B" (4/5)])

/-- C5, stated-claim scenario: build a tracked candidate with
`duration_frames = 3 ≥ transition_frames`, then `transition_frames + 1 = 4`
no-hand frames. -/
def c5Run : TemporalAggregator × List RecognizedGesture :=
  aggRun defaultAggregator
    (withTimes ([handFrame "A" (9/10), handFrame "A" (9/10),
                 handFrame "A" (9/10), handFrame "A" (9/10)] ++
                List.replicate 4 noHandFrame))

/-- C6: a default-mode (`HYBRID`) sentence constructor. -/
def c6Constructor : SentenceConstructor :=
  { vocabulary := defaultVocabulary }

/-- A single-frame recognized letter gesture, as the aggregator would hand
to the constructor. -/
def letterGesture (l : String) (c : ℚ) : RecognizedGesture :=
  { label := l
    gestureType := .STATIC
    confidence := c
    startTime := 0
    endTime := 0
    frameCount := 1 }

/-- C6: add H-E-L-L-O 0.1 s apart, then finalize. -/
def c6Final : SentenceConstructor × TranslationResult :=
  let sc := c6Constructor
  let sc := sc.addGesture (letterGesture "H" 0.85) 1
  let sc := sc.addGesture (letterGesture "E" 0.82) (11/10)
  let sc := sc.addGesture (letterGesture "L" 0.88) (6/5)
  let sc := sc.addGesture (letterGesture "L" 0.84) (13/10)
  let sc := sc.addGesture (letterGesture "O" 0.86) (7/5)
  sc.finalizeSentence (3/2)

/-- C7: start a pipeline and immediately stop-and-translate: zero gestures
processed. -/
def c7Result : TranslationResult :=
  (((mkPipeline).start .LIVE_ACCUMULATE 0).stopAndTranslate 1).2

/-- C8: translate the out-of-vocabulary word with expanded
fingerspelling. -/
def c8Result : SignSequenceResult :=
  translate { vocabulary := defaultVocabulary } "Xyzzy" true

/-- C9: a fresh default constructor fed one gesture labeled "I" with
`is_word_level = false`. -/
def c9After : SentenceConstructor :=
  c6Constructor.addGesture
    { letterGesture "I" (9/10) with isWordLevel := false } 1

/-- C10: frames whose hand-detected members all carry confidence
`0.9 ≥ min_confidence`, driving the no-hand finalize path right after a
candidate is started. -/
def c10Frames : List (GestureFrame × ℚ) :=
  withTimes ([handFrame "A" (9/10), handFrame "A" (9/10)] ++
             List.replicate 4 noHandFrame)

/-- C10: the run that emits a zero-confidence gesture. -/
def c10ZeroRun : TemporalAggregator × List RecognizedGesture :=
  aggRun defaultAggregator c10Frames

/-- The candidate tracked after two same-label frames (used by the C10
witness). -/
def c10Cand : GestureCandidate :=
  startCandidate "A" .STATIC 2 0

/-- A concrete tracked candidate used by the C3 witness. -/
def c3WitnessCand : GestureCandidate :=
  startCandidate "A" .STATIC 1 0

/-- A concrete tracking aggregator used by the C3 witness. -/
def c3WitnessAgg : TemporalAggregator :=
  { state := .TRACKING
    currentCandidate := some c3WitnessCand }

/-- A concrete two-sample history used by the C4 witness. -/
def c4WitnessHist : List (String × ℚ) :=
  [("A", 4/5), ("A", 9/10)]

/-- A concrete tracked candidate of duration 3 used by the C5 witness. -/
def c5WitnessCand : GestureCandidate :=
  { label := "A"
    gestureType := .STATIC
    startFrame := 1
    endFrame := 3
    frameIds := [1, 2, 3]
    confidences := [9/10, 9/10] }

/-- A concrete tracking aggregator used by the C5 witness. -/
def c5WitnessAgg : TemporalAggregator :=
  { state := .TRACKING
    currentCandidate := some c5WitnessCand }

/-! ## Helper lemmas -/

theorem labelVotesStep_same (l : String) (ds : List ℚ) (c : ℚ) :
    labelVotesStep [(l, ds)] (l, c) = [(l, ds ++ [c])] := by
  simp [labelVotesStep]

theorem labelVotes_uniform_aux (l : String) (cs : List ℚ) :
    ∀ ds : List ℚ,
      List.foldl labelVotesStep [(l, ds)] (cs.map (fun c => (l, c))) =
        [(l, ds ++ cs)] := by
  induction cs with
  | nil => intro ds; simp
  | cons c cs ih =>
    intro ds
    simp only [List.map, List.foldl, labelVotesStep_same]
    rw [ih]
    simp

theorem labelVotes_uniform (l : String) (c : ℚ) (cs : List ℚ) :
    labelVotes ((c :: cs).map (fun x => (l, x))) = [(l, c :: cs)] := by
  have h0 : labelVotesStep [] (l, c) = [(l, [c])] := by simp [labelVotesStep]
  simp only [labelVotes, List.map, List.foldl, h0]
  have := labelVotes_uniform_aux l cs [c]
  simp only [List.map] at this
  rw [this]
  simp

theorem voteScore_eq_sum (cs : List ℚ) (h : cs ≠ []) :
    voteScore cs = cs.sum := by
  have hlen : (cs.length : ℚ) ≠ 0 :=
    Nat.cast_ne_zero.mpr (List.length_pos.mpr h).ne'
  field_simp [voteScore]

theorem performVoting_uniform (l : String) (c₁ c₂ : ℚ) (cs : List ℚ)
    (hpos : ∀ x ∈ c₁ :: c₂ :: cs, 0 < x) :
    performVoting ((c₁ :: c₂ :: cs).map (fun x => (l, x))) =
      some (l, ratMin 1 ((c₁ :: c₂ :: cs).sum / (c₁ :: c₂ :: cs).length)) := by
  have hne : (c₁ :: c₂ :: cs) ≠ [] := by simp
  have hsum : 0 < (c₁ :: c₂ :: cs).sum := List.sum_pos _ hpos hne
  have hscore : voteScore (c₁ :: c₂ :: cs) = (c₁ :: c₂ :: cs).sum :=
    voteScore_eq_sum _ hne
  unfold performVoting
  rw [labelVotes_uniform]
  simp only [bestVote, bestVoteStep, List.foldl, hscore, List.length_map,
    List.length_cons]
  rw [if_pos hsum]
  simp only [List.find?, decide_True, Option.map, Option.getD,
    List.length_cons]
  have hdiv : (((cs.length + 1 + 1 : ℕ) : ℚ)) / (((cs.length + 1 + 1 : ℕ) : ℚ)) = 1 :=
    div_self (by positivity)
  push_cast at hdiv ⊢
  rw [hdiv]
  rw [if_neg (by norm_num)]
  norm_num

theorem startCandidate_len (l : String) (gt : GestureType) (fid : ℤ)
    (ts : ℚ) :
    (startCandidate l gt fid ts).confidences.length + 1 =
      (startCandidate l gt fid ts).frameIds.length := by
  simp [startCandidate]

theorem updateCandidate_len (c : GestureCandidate) (fid : ℤ) (conf ts : ℚ)
    (h : c.confidences.length + 1 = c.frameIds.length) :
    (updateCandidate c fid conf ts).confidences.length + 1 =
      (updateCandidate c fid conf ts).frameIds.length := by
  simp [updateCandidate]
  omega

theorem finalizeGesture_candidate (a : TemporalAggregator) :
    (finalizeGesture a).1.currentCandidate = none := by
  unfold finalizeGesture
  cases h : a.currentCandidate <;> simp [h]

theorem updateState_inv (a : TemporalAggregator) (l : String) (v : ℚ)
    (f : GestureFrame) (now : ℚ) (h : candidateLenInv a) :
    candidateLenInv (updateState a l v f now).1 := by
  intro c hc
  unfold updateState at hc
  split at hc
  · -- IDLE
    simp at hc
    rw [← hc]
    exact startCandidate_len _ _ _ _
  · -- TRACKING
    split at hc
    · -- candidate absent
      simp at hc
      rw [← hc]
      exact startCandidate_len _ _ _ _
    · -- candidate present
      rename_i c₀ hcand
      split at hc
      · -- same label
        simp only [] at hc
        split at hc
        · rw [finalizeGesture_candidate] at hc
          exact absurd hc (by simp)
        · simp at hc
          rw [← hc]
          exact updateCandidate_len _ _ _ _ (h c₀ hcand)
      · -- different label
        split at hc
        · simp at hc
          rw [← hc]
          exact startCandidate_len _ _ _ _
        · simp at hc
          rw [← hc]
          exact startCandidate_len _ _ _ _
  · -- STABLE
    split at hc
    · rename_i c₀ hcand
      split at hc
      · simp at hc
        rw [← hc]
        exact updateCandidate_len _ _ _ _ (h c₀ hcand)
      · simp at hc
        rw [← hc]
        exact startCandidate_len _ _ _ _
    · simp at hc
      rw [← hc]
      exact startCandidate_len _ _ _ _
  · -- TRANSITIONING
    split at hc
    · rename_i c₀ hcand
      split at hc
      · simp at hc
        rw [← hc]
        exact updateCandidate_len _ _ _ _ (h c₀ hcand)
      · exact h c hc
    · exact h c hc

theorem processFrame_inv (a : TemporalAggregator) (f : GestureFrame)
    (now : ℚ) (h : candidateLenInv a) :
    candidateLenInv (processFrame a f now).1 := by
  intro c hc
  unfold processFrame at hc
  simp only [] at hc
  split at hc
  · -- no hand detected
    split at hc
    · rw [finalizeGesture_candidate] at hc
      exact absurd hc (by simp)
    · split at hc
      · simp at hc
        exact h c hc
      · simp at hc
        exact h c hc
  · -- hand detected
    split at hc
    · -- voting returned no result
      simp only [] at hc
      split at hc
      · split at hc
        · simp at hc
          exact h c hc
        · simp at hc
          exact h c hc
      · simp at hc
        exact h c hc
    · -- voting picked a label: defer to the state machine
      rename_i lv hvote
      refine updateState_inv _ _ _ _ _ ?_ c hc
      intro x hx
      split at hx
      · split at hx
        · simp at hx
          exact h x hx
        · simp at hx
          exact h x hx
      · simp at hx
        exact h x hx

theorem aggRunAux_inv (fs : List (GestureFrame × ℚ)) :
    ∀ (p : TemporalAggregator × List RecognizedGesture),
      candidateLenInv p.1 →
      candidateLenInv
        (fs.foldl
          (fun (p : TemporalAggregator × List RecognizedGesture) f =>
            let r := processFrame p.1 f.1 f.2
            (r.1, p.2 ++ r.2.toList)) p).1 := by
  induction fs with
  | nil => intro p hp; exact hp
  | cons f fs ih =>
    intro p hp
    exact ih _ (processFrame_inv _ _ _ hp)

theorem aggRun_inv (a : TemporalAggregator) (fs : List (GestureFrame × ℚ))
    (h : candidateLenInv a) : candidateLenInv (aggRun a fs).1 := by
  unfold aggRun
  exact aggRunAux_inv fs (a, []) h

theorem labelConfs_append (pre : List (String × ℚ)) (l₀ : String) (c₀ : ℚ)
    (l : String) :
    labelConfs (pre ++ [(l₀, c₀)]) l =
      labelConfs pre l ++ (if l₀ = l then [c₀] else []) := by
  by_cases h : l₀ = l <;> simp [labelConfs, List.filter_append, h]

theorem labelConfs_eq_nil_of_not_mem (pre : List (String × ℚ)) (l : String)
    (h : l ∉ pre.map Prod.fst) : labelConfs pre l = [] := by
  unfold labelConfs
  have hfil : List.filter (fun e => decide (e.1 = l)) pre = [] := by
    rw [List.filter_eq_nil_iff]
    intro e he
    simp only [decide_eq_true_eq]
    intro hfst
    exact h (List.mem_map.mpr ⟨e, he, hfst⟩)
  rw [hfil]
  rfl

theorem votesAccSpec_step (processed : List (String × ℚ))
    (acc : List (String × List ℚ)) (l₀ : String) (c₀ : ℚ)
    (hp : votesAccSpec processed acc) :
    votesAccSpec (processed ++ [(l₀, c₀)])
      (labelVotesStep acc (l₀, c₀)) := by
  obtain ⟨hconf, hkeys, hnd⟩ := hp
  unfold labelVotesStep
  by_cases hmem : acc.any (fun e => e.1 = l₀)
  · rw [if_pos hmem]
    have hfst : ∀ e : String × List ℚ,
        (if e.1 = l₀ then (e.1, e.2 ++ [c₀]) else e).1 = e.1 := by
      intro e; split <;> rfl
    have hmap : (acc.map
        (fun e => if e.1 = l₀ then (e.1, e.2 ++ [c₀]) else e)).map Prod.fst =
        acc.map Prod.fst := by
      rw [List.map_map]
      exact List.map_congr_left (fun e _ => hfst e)
    have hl₀ : l₀ ∈ processed.map Prod.fst := by
      rw [← hkeys]
      rcases List.any_eq_true.mp hmem with ⟨e, he, heq⟩
      simp only [decide_eq_true_eq] at heq
      exact heq ▸ List.mem_map.mpr ⟨e, he, rfl⟩
    refine ⟨?_, ?_, ?_⟩
    · intro e' he'
      rcases List.mem_map.mp he' with ⟨e, he, rfl⟩
      by_cases h : e.1 = l₀
      · simp only [if_pos h, labelConfs_append, h]
        rw [hconf e he]
        simp [h]
      · simp only [if_neg h, labelConfs_append]
        rw [hconf e he, if_neg (fun hh => h hh.symm)]
        simp
    · intro l
      rw [hmap, hkeys]
      simp only [List.map_append, List.mem_append]
      constructor
      · exact fun h => Or.inl h
      · rintro (h | h)
        · exact h
        · simp at h
          exact h ▸ hl₀
    · rw [hmap]; exact hnd
  · rw [if_neg hmem]
    have hnotin : l₀ ∉ acc.map Prod.fst := by
      intro hin
      rcases List.mem_map.mp hin with ⟨e, he, hfst⟩
      exact hmem (List.any_eq_true.mpr ⟨e, he, by simp [hfst]⟩)
    have hl₀ : l₀ ∉ processed.map Prod.fst := fun h => hnotin ((hkeys l₀).mpr h)
    refine ⟨?_, ?_, ?_⟩
    · intro e' he'
      rcases List.mem_append.mp he' with he | he
      · rw [hconf e' he, labelConfs_append]
        have : l₀ ≠ e'.1 := by
          intro hh
          exact hnotin (hh ▸ List.mem_map.mpr ⟨e', he, rfl⟩)
        rw [if_neg this]
        simp
      · simp at he
        subst he
        rw [labelConfs_append, labelConfs_eq_nil_of_not_mem _ _ hl₀]
        simp
    · intro l
      simp only [List.map_append, List.mem_append, hkeys]
      simp
    · simp only [List.map_append]
      refine List.Nodup.append hnd (by simp) ?_
      intro x hx hy
      simp at hy
      exact hnotin (hy ▸ hx)

theorem votesAccSpec_foldl (hist : List (String × ℚ)) :
    ∀ (processed : List (String × ℚ)) (acc : List (String × List ℚ)),
      votesAccSpec processed acc →
      votesAccSpec (processed ++ hist) (hist.foldl labelVotesStep acc) := by
  induction hist with
  | nil => intro processed acc hp; simpa using hp
  | cons lc rest ih =>
    intro processed acc hp
    have hstep := votesAccSpec_step processed acc lc.1 lc.2 hp
    have := ih (processed ++ [(lc.1, lc.2)]) _ hstep
    simpa using this

theorem labelVotes_spec (hist : List (String × ℚ)) :
    votesAccSpec hist (labelVotes hist) := by
  have h0 : votesAccSpec [] [] := by
    refine ⟨by simp, by simp, by simp⟩
  have := votesAccSpec_foldl hist [] [] h0
  simpa [labelVotes] using this

theorem bestVote_foldl_spec (votes : List (String × List ℚ)) :
    ∀ b : Option String × ℚ,
      (∀ e ∈ votes, voteScore e.2 ≤ (votes.foldl bestVoteStep b).2) ∧
        b.2 ≤ (votes.foldl bestVoteStep b).2 ∧
        (votes.foldl bestVoteStep b = b ∨
          ∃ e ∈ votes, votes.foldl bestVoteStep b =
            (some e.1, voteScore e.2) ∧ b.2 < voteScore e.2) := by
  induction votes with
  | nil => intro b; exact ⟨by simp, le_refl _, Or.inl rfl⟩
  | cons v rest ih =>
    intro b
    obtain ⟨iha, ihb, ihc⟩ := ih (bestVoteStep b v)
    have hb' : b.2 ≤ (bestVoteStep b v).2 := by
      unfold bestVoteStep
      split
      · exact le_of_lt (by assumption)
      · exact le_refl _
    have hv : voteScore v.2 ≤ (bestVoteStep b v).2 := by
      unfold bestVoteStep
      split
      · exact le_refl _
      · exact le_of_not_lt (by assumption)
    refine ⟨?_, ?_, ?_⟩
    · intro e he
      rcases List.mem_cons.mp he with rfl | he
      · exact le_trans hv ihb
      · exact iha e he
    · exact le_trans hb' ihb
    · rcases ihc with heq | ⟨e, he, heq, hlt⟩
      · by_cases hstep : b.2 < voteScore v.2
        · refine Or.inr ⟨v, List.mem_cons_self _ _, ?_, hstep⟩
          rw [List.foldl_cons, heq]
          unfold bestVoteStep
          rw [if_pos hstep]
        · refine Or.inl ?_
          rw [List.foldl_cons, heq]
          unfold bestVoteStep
          rw [if_neg hstep]
      · refine Or.inr ⟨e, List.mem_cons_of_mem _ he, heq, lt_of_le_of_lt hb' hlt⟩

theorem find?_eq_of_nodup_mem (votes : List (String × List ℚ)) (l : String)
    (cs : List ℚ) (hnd : (votes.map Prod.fst).Nodup)
    (hmem : (l, cs) ∈ votes) :
    votes.find? (fun e => e.1 = l) = some (l, cs) := by
  induction votes with
  | nil => cases hmem
  | cons v rest ih =>
    simp only [List.map_cons, List.nodup_cons] at hnd
    rcases List.mem_cons.mp hmem with rfl | hmemr
    · simp [List.find?]
    · have hne : ¬ (v.1 = l) := by
        intro hv
        exact hnd.1 (hv ▸ List.mem_map.mpr ⟨(l, cs), hmemr, rfl⟩)
      rw [List.find?_cons_of_neg _ (by simpa using hne)]
      exact ih hnd.2 hmemr

theorem mem_labelVotes_of_mem_keys (hist : List (String × ℚ)) (l : String)
    (h : l ∈ hist.map Prod.fst) :
    (l, labelConfs hist l) ∈ labelVotes hist := by
  obtain ⟨hconf, hkeys, _⟩ := labelVotes_spec hist
  have hin : l ∈ (labelVotes hist).map Prod.fst := (hkeys l).mpr h
  rcases List.mem_map.mp hin with ⟨e, he, hfst⟩
  have hc := hconf e he
  have he' : e = (l, labelConfs hist l) := by
    obtain ⟨e₁, e₂⟩ := e
    simp only at hfst hc
    rw [hfst] at hc ⊢
    rw [hc]
  rw [← he']
  exact he

theorem labelConfs_ne_nil (hist : List (String × ℚ)) (l : String)
    (h : l ∈ hist.map Prod.fst) : labelConfs hist l ≠ [] := by
  rcases List.mem_map.mp h with ⟨e, he, hfst⟩
  intro hnil
  have hmm : e.2 ∈ labelConfs hist l := by
    unfold labelConfs
    exact List.mem_map.mpr
      ⟨e, List.mem_filter.mpr ⟨he, by simp [hfst]⟩, rfl⟩
  rw [hnil] at hmm
  cases hmm

theorem labelConfs_pos (hist : List (String × ℚ)) (l : String)
    (hpos : ∀ p ∈ hist, 0 < p.2) : ∀ x ∈ labelConfs hist l, 0 < x := by
  intro x hx
  unfold labelConfs at hx
  rcases List.mem_map.mp hx with ⟨e, he, rfl⟩
  exact hpos e (List.mem_filter.mp he).1

theorem scoreOf_eq_voteScore (hist : List (String × ℚ)) (l : String) :
    scoreOf hist l = voteScore (labelConfs hist l) := rfl

theorem scoreOf_pos (hist : List (String × ℚ)) (l : String)
    (hpos : ∀ p ∈ hist, 0 < p.2) (h : l ∈ hist.map Prod.fst) :
    0 < scoreOf hist l := by
  rw [scoreOf_eq_voteScore,
    voteScore_eq_sum _ (labelConfs_ne_nil hist l h)]
  exact List.sum_pos _ (labelConfs_pos hist l hpos) (labelConfs_ne_nil hist l h)

theorem bestVote_spec (votes : List (String × List ℚ)) :
    (∀ e ∈ votes, voteScore e.2 ≤ (bestVote votes).2) ∧
      ((bestVote votes).1 = none → ∀ e ∈ votes, voteScore e.2 ≤ 0) ∧
      (∀ w, (bestVote votes).1 = some w →
        ∃ cs, (w, cs) ∈ votes ∧ (bestVote votes).2 = voteScore cs ∧
          0 < voteScore cs) := by
  obtain ⟨ha, _, hc⟩ := bestVote_foldl_spec votes (none, 0)
  refine ⟨ha, ?_, ?_⟩
  · intro hnone e he
    rcases hc with heq | ⟨e', _, heq, _⟩
    · have h2 := ha e he
      rw [heq] at h2
      simpa using h2
    · rw [show bestVote votes = votes.foldl bestVoteStep (none, 0) from rfl,
        heq] at hnone
      cases hnone
  · intro w hw
    rcases hc with heq | ⟨e', he', heq, hlt⟩
    · rw [show bestVote votes = votes.foldl bestVoteStep (none, 0) from rfl,
        heq] at hw
      cases hw
    · refine ⟨e'.2, ?_, ?_, ?_⟩
      · have hfst : e'.1 = w := by
          rw [show bestVote votes = votes.foldl bestVoteStep (none, 0) from
            rfl, heq] at hw
          simpa using hw
        rw [← hfst]
        exact he'
      · rw [show bestVote votes = votes.foldl bestVoteStep (none, 0) from rfl,
          heq]
      · simpa using hlt

theorem votingWinner_isSome (hist : List (String × ℚ)) (hne : hist ≠ [])
    (hpos : ∀ p ∈ hist, 0 < p.2) : ∃ w, votingWinner hist = some w := by
  cases hv : votingWinner hist with
  | some w => exact ⟨w, rfl⟩
  | none =>
    exfalso
    obtain ⟨l₁, hl₁⟩ : ∃ l₁, l₁ ∈ hist.map Prod.fst := by
      cases hist with
      | nil => exact absurd rfl hne
      | cons p rest => exact ⟨p.1, by simp⟩
    have hmem := mem_labelVotes_of_mem_keys hist l₁ hl₁
    have hle := (bestVote_spec (labelVotes hist)).2.1 hv _ hmem
    have hgt : 0 < voteScore (labelConfs hist l₁) :=
      scoreOf_pos hist l₁ hpos hl₁
    exact absurd hle (not_le.mpr hgt)

/-! ## Claims: C1, C6, C7, C8, C9 (concrete runs) and counterexamples -/

/-- C1 counterexample: in the spec's end-to-end `LIVE_ACCUMULATE` scenario,
the returned text is not `"Hello"` — the pipeline's sentence builder runs in
`CONTINUOUS` mode, and `_finalize_word` only consults the pattern table in
`WORD_RECOGNITION`/`HYBRID` modes. -/
theorem c1_counterexample : c1Result.text ≠ "Hello" := by decide

/-- C1 (amended): feeding the five gestures `('H',0.85) … ('O',0.86)`
through `process_gesture` on a pipeline started in `LIVE_ACCUMULATE` mode
with default configuration, then calling `stop_and_translate()`, returns a
`TranslationResult` with `text = "HELLO"` (the raw letter string, since the
continuous-mode constructor skips pattern recognition), `gesture_count = 5`
and `confidence > 0`. -/
theorem c1_theorem :
    c1Result.text = "HELLO" ∧ c1Result.gestureCount = 5 ∧
      0 < c1Result.confidence := by
  decide

/-- C6 (confirmed): a default-mode (`HYBRID`) `SentenceConstructor` given
the letters H-E-L-L-O within the word timeout and then finalized produces
the word `"Hello"` via the letter-pattern table, not the literal
`"HELLO"`. -/
theorem c6_theorem :
    c6Final.2.text = "Hello" ∧ c6Final.1.words = ["Hello"] ∧
      defaultVocabulary.recognizeWordPattern "HELLO" = some "Hello" ∧
      c6Final.2.text ≠ "HELLO" := by
  decide

/-- C7 (confirmed): `stop_and_translate()` on a started pipeline with zero
gestures processed returns `text = ""` and `is_valid = False`; and
`is_valid` holds exactly when the text is non-empty and the confidence is
positive. -/
theorem c7_theorem :
    (c7Result.text = "" ∧ c7Result.isValid = false) ∧
      ∀ r : TranslationResult,
        r.isValid = true ↔ (r.text ≠ "" ∧ 0 < r.confidence) := by
  refine ⟨by decide, fun r => ?_⟩
  simp [TranslationResult.isValid]

/-- C8 (confirmed): translating the out-of-vocabulary word `"Xyzzy"` with
`expand_fingerspelling = true` yields exactly five `LETTER_SPELL` units,
one per letter, and no `WORD_SIGN` unit. -/
theorem c8_theorem :
    c8Result.signs.length = 5 ∧
      c8Result.signs.map (fun s => (s.text, s.outputType)) =
        [("X", .LETTER_SPELL), ("Y", .LETTER_SPELL), ("Z", .LETTER_SPELL),
         ("Z", .LETTER_SPELL), ("Y", .LETTER_SPELL)] ∧
      ∀ s ∈ c8Result.signs, s.outputType ≠ .WORD_SIGN := by
  decide

/-- C9 (confirmed): the default vocabulary's pronoun sign `word_i`
registers the label "i" case-insensitively, overwriting the letter-I
mapping, so `is_word_gesture "I"` is true and `add_gesture` on a gesture
labeled "I" (with `is_word_level = false`) appends the standalone word "I"
rather than extending the in-progress word. -/
theorem c9_theorem :
    defaultVocabulary.isWordGesture "I" = true ∧
      dictGet? defaultVocabulary.gestureToSign "I" = some "word_i" ∧
      dictGet? defaultVocabulary.gestureToSign "i" = some "word_i" ∧
      c9After.words = ["I"] ∧ c9After.currentWord.letters = [] := by
  decide

/-- C2 counterexample: with default parameters
(`stability_threshold = 5`), five consecutive same-label frames of
confidence `0.8 ≥ min_confidence` emit nothing at all — not exactly one
gesture. -/
theorem c2_counterexample :
    defaultAggregator.stabilityThreshold = 5 ∧
      (c2Run "A" [4/5, 4/5, 4/5, 4/5, 4/5]).2 = [] := by
  decide

/-- C3 counterexample: from a fresh default aggregator, two A-frames
followed by B-frames abandon an A-candidate of `duration_frames = 2`;
since `2 < stability_threshold / 2 = 2.5`, the claim says it must be
dropped silently, but the code (floor division: `5 // 2 = 2`) finalizes
and emits it. -/
theorem c3_counterexample :
    c3Run.2.map (fun g => (g.label, g.frameCount)) = [("A", 2)] := by
  decide

/-- C5 counterexample: a tracked candidate of duration
`3 ≥ transition_frames` followed by `transition_frames + 1 = 4` no-hand
frames is finalized exactly once, but the aggregator is still `TRACKING`,
not `IDLE` (the `IDLE` transition needs the streak to exceed
`window_size // 2 = 7`). -/
theorem c5_counterexample :
    c5Run.2.length = 1 ∧ c5Run.1.state ≠ AggregationState.IDLE := by
  decide

/-- C2 (amended): for a freshly constructed default aggregator, feeding
`stability_threshold + 1 = 6` consecutive frames that all carry the same
(non-empty) label with confidence `≥ min_confidence` emits, across those
calls, exactly one `RecognizedGesture` with that label and
`frame_count = stability_threshold = 5` (the candidate only starts on the
second frame, once the vote history holds two samples). -/
theorem c2_theorem (l : String) (c₁ c₂ c₃ c₄ c₅ c₆ : ℚ) (hl : l ≠ "")
    (h₁ : 1/2 ≤ c₁) (h₂ : 1/2 ≤ c₂) (h₃ : 1/2 ≤ c₃) (h₄ : 1/2 ≤ c₄)
    (h₅ : 1/2 ≤ c₅) (h₆ : 1/2 ≤ c₆) :
    (c2Run l [c₁, c₂, c₃, c₄, c₅, c₆]).2.map
      (fun g => (g.label, g.frameCount)) = [(l, 5)] := by
  have v2 := performVoting_uniform l c₁ c₂ [] (by intro x hx; fin_cases hx <;> linarith)
  have v3 := performVoting_uniform l c₁ c₂ [c₃] (by intro x hx; fin_cases hx <;> linarith)
  have v4 := performVoting_uniform l c₁ c₂ [c₃, c₄] (by intro x hx; fin_cases hx <;> linarith)
  have v5 := performVoting_uniform l c₁ c₂ [c₃, c₄, c₅] (by intro x hx; fin_cases hx <;> linarith)
  have v6 := performVoting_uniform l c₁ c₂ [c₃, c₄, c₅, c₆] (by intro x hx; fin_cases hx <;> linarith)
  simp only [List.map] at v2 v3 v4 v5 v6
  have v1 : performVoting [(l, c₁)] = none := by simp [performVoting]
  have k₁ : (2 : ℚ)⁻¹ ≤ c₁ := by rw [← one_div]; exact h₁
  have k₂ : (2 : ℚ)⁻¹ ≤ c₂ := by rw [← one_div]; exact h₂
  have k₃ : (2 : ℚ)⁻¹ ≤ c₃ := by rw [← one_div]; exact h₃
  have k₄ : (2 : ℚ)⁻¹ ≤ c₄ := by rw [← one_div]; exact h₄
  have k₅ : (2 : ℚ)⁻¹ ≤ c₅ := by rw [← one_div]; exact h₅
  have k₆ : (2 : ℚ)⁻¹ ≤ c₆ := by rw [← one_div]; exact h₆
  simp [c2Run, aggRun, withTimes, handFrame, defaultAggregator, processFrame,
    dequeAppend, v1, v2, v3, v4, v5, v6, updateState, startCandidate,
    updateCandidate, finalizeGesture, hl, k₁, k₂, k₃, k₄, k₅, k₆,
    GestureCandidate.durationFrames]

/-- Witness for C2 at label "A" and confidence 0.8. -/
theorem c2_witness :
    (("A" : String) ≠ "" ∧ (1/2 : ℚ) ≤ 4/5) ∧
      (c2Run "A" [4/5, 4/5, 4/5, 4/5, 4/5, 4/5]).2.map
        (fun g => (g.label, g.frameCount)) = [("A", 5)] :=
  ⟨⟨by decide, by norm_num⟩,
   c2_theorem "A" (4/5) (4/5) (4/5) (4/5) (4/5) (4/5) (by decide)
     (by norm_num) (by norm_num) (by norm_num) (by norm_num) (by norm_num)
     (by norm_num)⟩

/-- C3 (amended): when the aggregator is TRACKING a candidate for label A
and the vote yields a different label B, the candidate is finalized and
emitted exactly when its `duration_frames` is at least
`stability_threshold // 2` (Python floor division — 2 with defaults, not
2.5), and a fresh candidate for B is started either way (the state moving
to TRANSITIONING).  In particular, with equal confidences one leading
A-frame is abandoned silently while two A-frames already make the
candidate substantial enough to be emitted before B is tracked. -/
theorem c3_theorem :
    (∀ (a : TemporalAggregator) (cnd : GestureCandidate) (l : String)
        (v : ℚ) (f : GestureFrame) (now : ℚ),
      a.state = .TRACKING → a.currentCandidate = some cnd →
      l ≠ cnd.label →
      (((updateState a l v f now).2.isSome ↔
          ((a.stabilityThreshold / 2 : ℕ) : ℤ) ≤ cnd.durationFrames) ∧
        (∀ g, (updateState a l v f now).2 = some g →
          g.label = cnd.label ∧ g.frameCount = cnd.durationFrames ∧
            g.confidence = cnd.averageConfidence) ∧
        (updateState a l v f now).1.currentCandidate =
          some (startCandidate l f.gestureType f.frameId now) ∧
        (updateState a l v f now).1.state = .TRANSITIONING)) ∧
      c3ShortRun.2 = [] ∧
      (c3ShortRun.1.currentCandidate.map fun c => c.label) = some "B" ∧
      c3LongRun.2.map (fun g => g.label) = ["A"] ∧
      (c3LongRun.1.currentCandidate.map fun c => c.label) = some "B" := by
  refine ⟨?_, by decide, by decide, by decide, by decide⟩
  intro a cnd l v f now hs hc hl
  rw [updateState, hs, hc]
  simp only [if_neg hl]
  by_cases hd : ((a.stabilityThreshold / 2 : ℕ) : ℤ) ≤ cnd.durationFrames
  · rw [if_pos hd]
    simp only [finalizeGesture, hc]
    simp [hd]
    omega
  · rw [if_neg hd]
    simp [hd]
    omega

/-- Witness for C3 at a concrete tracking aggregator. -/
theorem c3_witness :
    (c3WitnessAgg.state = .TRACKING ∧
      c3WitnessAgg.currentCandidate = some c3WitnessCand ∧
      "B" ≠ c3WitnessCand.label) ∧
      (((updateState c3WitnessAgg "B" (9/10)
            (handFrame "B" (9/10)) 0).2.isSome ↔
          ((c3WitnessAgg.stabilityThreshold / 2 : ℕ) : ℤ) ≤
            c3WitnessCand.durationFrames) ∧
        (∀ g, (updateState c3WitnessAgg "B" (9/10)
            (handFrame "B" (9/10)) 0).2 = some g →
          g.label = c3WitnessCand.label ∧
            g.frameCount = c3WitnessCand.durationFrames ∧
            g.confidence = c3WitnessCand.averageConfidence) ∧
        (updateState c3WitnessAgg "B" (9/10)
            (handFrame "B" (9/10)) 0).1.currentCandidate =
          some (startCandidate "B" (handFrame "B" (9/10)).gestureType
            (handFrame "B" (9/10)).frameId 0) ∧
        (updateState c3WitnessAgg "B" (9/10)
            (handFrame "B" (9/10)) 0).1.state = .TRANSITIONING) :=
  ⟨⟨rfl, rfl, by decide⟩,
   c3_theorem.1 c3WitnessAgg c3WitnessCand "B" (9/10)
     (handFrame "B" (9/10)) 0 rfl rfl (by decide)⟩

/-- C4 (confirmed): for histories of positive-confidence samples (every
accepted sample has confidence `≥ min_confidence > 0`),
`_perform_voting` returns no result exactly when the history holds fewer
than 2 entries or the winning label's consistency is below 0.4; otherwise
it returns a label maximizing `score = count × mean(confidence)` with
confidence `mean × (0.5 + 0.5 × consistency)` clamped at 1.0. -/
theorem c4_theorem (hist : List (String × ℚ))
    (hpos : ∀ p ∈ hist, 0 < p.2) :
    (performVoting hist = none ↔
      hist.length < 2 ∨
        ∃ w, votingWinner hist = some w ∧ consistencyOf hist w < 2/5) ∧
      ∀ l v, performVoting hist = some (l, v) →
        (∀ x ∈ hist.map Prod.fst, scoreOf hist x ≤ scoreOf hist l) ∧
          v = ratMin 1 (meanConf hist l * (1/2 + 1/2 * consistencyOf hist l)) := by
  by_cases hlen : hist.length < 2
  · refine ⟨⟨fun _ => Or.inl hlen, fun _ => ?_⟩, fun l v hv => ?_⟩
    · unfold performVoting
      rw [if_pos hlen]
    · unfold performVoting at hv
      rw [if_pos hlen] at hv
      cases hv
  · have hne : hist ≠ [] := by
      intro h
      rw [h] at hlen
      simp at hlen
    obtain ⟨hconf, hkeys, hnd⟩ := labelVotes_spec hist
    obtain ⟨w, hw⟩ := votingWinner_isSome hist hne hpos
    obtain ⟨cs, hcsmem, hbv2, hbvpos⟩ :=
      (bestVote_spec (labelVotes hist)).2.2 w hw
    have hcs : cs = labelConfs hist w := hconf (w, cs) hcsmem
    subst hcs
    have hbv : bestVote (labelVotes hist) =
        (some w, (bestVote (labelVotes hist)).2) := by
      cases hb : bestVote (labelVotes hist) with
      | mk fst snd =>
        unfold votingWinner at hw
        rw [hb] at hw
        simp at hw ⊢
        exact hw
    have hfind : (labelVotes hist).find? (fun e => e.1 = w) =
        some (w, labelConfs hist w) :=
      find?_eq_of_nodup_mem _ _ _ hnd hcsmem
    have hmax : ∀ x ∈ hist.map Prod.fst, scoreOf hist x ≤ scoreOf hist w := by
      intro x hx
      have := (bestVote_spec (labelVotes hist)).1 _
        (mem_labelVotes_of_mem_keys hist x hx)
      rw [hbv2] at this
      exact this
    by_cases hcons : consistencyOf hist w < 2/5
    · have hcons' : (((labelConfs hist w).length : ℚ) / (hist.length : ℚ)) <
          2/5 := hcons
      refine ⟨⟨fun _ => Or.inr ⟨w, hw, hcons⟩, fun _ => ?_⟩, fun l v hv => ?_⟩
      · unfold performVoting
        simp only []
        rw [if_neg hlen, hbv]
        simp only [hfind, Option.map, Option.getD]
        rw [if_pos hcons']
      · exfalso
        unfold performVoting at hv
        simp only [] at hv
        rw [if_neg hlen, hbv] at hv
        simp only [hfind, Option.map, Option.getD] at hv
        rw [if_pos hcons'] at hv
        cases hv
    · have hcons' : ¬ ((((labelConfs hist w).length : ℚ) /
          (hist.length : ℚ)) < 2/5) := hcons
      have hres : performVoting hist = some (w, ratMin 1
          (meanConf hist w * (1/2 + 1/2 * consistencyOf hist w))) := by
        unfold performVoting
        simp only []
        rw [if_neg hlen, hbv]
        simp only [hfind, Option.map, Option.getD]
        rw [if_neg hcons']
        rfl
      refine ⟨⟨fun habs => ?_, fun hor => ?_⟩, fun l v hv => ?_⟩
      · rw [hres] at habs
        cases habs
      · rcases hor with h2 | ⟨w', hw', hcons'⟩
        · exact absurd h2 hlen
        · rw [hw] at hw'
          have : w' = w := by
            injection hw' with h
            exact h.symm
          rw [this] at hcons'
          exact absurd hcons' hcons
      · rw [hres] at hv
        injection hv with h
        injection h with h₁ h₂
        subst h₁
        exact ⟨hmax, h₂.symm⟩

/-- Witness for C4 at a concrete two-sample history. -/
theorem c4_witness :
    (∀ p ∈ c4WitnessHist, 0 < p.2) ∧
      ((performVoting c4WitnessHist = none ↔
        c4WitnessHist.length < 2 ∨
          ∃ w, votingWinner c4WitnessHist = some w ∧
            consistencyOf c4WitnessHist w < 2/5) ∧
      ∀ l v, performVoting c4WitnessHist = some (l, v) →
        (∀ x ∈ c4WitnessHist.map Prod.fst,
          scoreOf c4WitnessHist x ≤ scoreOf c4WitnessHist l) ∧
          v = ratMin 1 (meanConf c4WitnessHist l *
            (1/2 + 1/2 * consistencyOf c4WitnessHist l))) :=
  ⟨by decide, c4_theorem c4WitnessHist (by decide)⟩

/-- C5 (amended): a TRACKING candidate followed by
`transition_frames + 1 = 4` no-hand frames is finalized (emitted) exactly
once during those frames, but the aggregator is still TRACKING at their
end; it reaches IDLE only once the no-hand streak exceeds
`window_size // 2 = 7`, i.e. after 8 consecutive no-hand frames. -/
theorem c5_theorem (a : TemporalAggregator) (cnd : GestureCandidate)
    (hw : a.windowSize = 15) (ht : a.transitionFrames = 3)
    (hs : a.state = .TRACKING) (hc : a.currentCandidate = some cnd)
    (hn : a.noHandCount = 0) (_hd : (3 : ℤ) ≤ cnd.durationFrames) :
    (aggRun a (withTimes (List.replicate 4 noHandFrame))).2.map
        (fun g => g.label) = [cnd.label] ∧
      (aggRun a (withTimes (List.replicate 4 noHandFrame))).1.state =
        .TRACKING ∧
      (aggRun a (withTimes (List.replicate 8 noHandFrame))).2.map
        (fun g => g.label) = [cnd.label] ∧
      (aggRun a (withTimes (List.replicate 8 noHandFrame))).1.state =
        .IDLE := by
  simp only [aggRun, withTimes, List.replicate, List.map, List.foldl]
  simp [processFrame, noHandFrame, finalizeGesture, hw, ht, hs, hc, hn]

/-- Witness for C5 at a concrete tracking aggregator. -/
theorem c5_witness :
    (c5WitnessAgg.windowSize = 15 ∧ c5WitnessAgg.transitionFrames = 3 ∧
      c5WitnessAgg.state = .TRACKING ∧
      c5WitnessAgg.currentCandidate = some c5WitnessCand ∧
      c5WitnessAgg.noHandCount = 0 ∧
      (3 : ℤ) ≤ c5WitnessCand.durationFrames) ∧
      ((aggRun c5WitnessAgg (withTimes (List.replicate 4 noHandFrame))).2.map
          (fun g => g.label) = [c5WitnessCand.label] ∧
        (aggRun c5WitnessAgg
            (withTimes (List.replicate 4 noHandFrame))).1.state =
          .TRACKING ∧
        (aggRun c5WitnessAgg (withTimes (List.replicate 8 noHandFrame))).2.map
          (fun g => g.label) = [c5WitnessCand.label] ∧
        (aggRun c5WitnessAgg
            (withTimes (List.replicate 8 noHandFrame))).1.state = .IDLE) :=
  ⟨⟨rfl, rfl, rfl, rfl, rfl, by decide⟩,
   c5_theorem c5WitnessAgg c5WitnessCand rfl rfl rfl rfl rfl (by decide)⟩

/-- C10 (confirmed): every candidate maintained by the aggregator (from
any start state whose candidate already satisfies the invariant, in
particular a fresh one) has `len(confidences) = len(frame_ids) - 1`; and
the concrete no-hand finalize run emits a gesture with `confidence = 0.0`
and `frame_count = 1` although every hand-detected frame carried
confidence `0.9 ≥ min_confidence`. -/
theorem c10_theorem :
    (∀ (a : TemporalAggregator) (fs : List (GestureFrame × ℚ))
        (c : GestureCandidate), candidateLenInv a →
      (aggRun a fs).1.currentCandidate = some c →
      c.confidences.length + 1 = c.frameIds.length) ∧
      c10ZeroRun.2.map (fun g => (g.confidence, g.frameCount)) = [(0, 1)] ∧
      ∀ p ∈ c10Frames, p.1.handDetected = true →
        (1/2 : ℚ) ≤ p.1.confidence :=
  ⟨fun a fs c ha hc => aggRun_inv a fs ha c hc, by decide, by decide⟩

/-- Witness for C10: the invariant instantiated at the candidate tracked
after two same-label frames. -/
theorem c10_witness :
    (candidateLenInv defaultAggregator ∧
      (aggRun defaultAggregator
        (withTimes [handFrame "A" (9/10), handFrame "A" (9/10)])).1.currentCandidate =
        some c10Cand) ∧
      c10Cand.confidences.length + 1 = c10Cand.frameIds.length :=
  ⟨⟨fun c hc => by simp [defaultAggregator] at hc, by decide⟩,
   c10_theorem.1 defaultAggregator
     (withTimes [handFrame "A" (9/10), handFrame "A" (9/10)]) c10Cand
     (fun c hc => by simp [defaultAggregator] at hc) (by decide)⟩

end SignLang
